import Mathlib

/-!
Verification development for the Arduino launcher-panel desktop driver
(`Driver/driver.py`).  The driver bridges a serial button panel to desktop
program launches: a `SerialTransport` maintains a resilient line-oriented
serial channel, a `ButtonDriver` decodes `|`-separated text frames,
launches the program mapped to a pressed button and drives LED feedback,
and `normalize_program` canonicalises config entries into token lists.

This file gives a shallow embedding of those parts and proves/refutes the
frozen claims about them.  Pure functions become Lean functions; the
effectful handler code becomes a function producing an explicit trace of
effects; the serial transport (whose operations loop and recurse) becomes
a fuel-indexed state machine; the write-lock discipline becomes a small
interleaving model.  Python's `str.split('|')`, `str.upper()` and
`str.strip()` are embedded as structurally recursive functions over the
character list of a string so that everything evaluates inside the kernel.
-/

set_option maxRecDepth 4000

/-- Embeds Python `s.split('|')` on the character list: splitting an empty
string yields one empty field, and every separator starts a new field. -/
def splitFields : List Char → List (List Char)
  | [] => [[]]
  | c :: cs =>
    if c = '|' then [] :: splitFields cs
    else
      match splitFields cs with
      | [] => [[c]]
      | f :: fs => (c :: f) :: fs

/-- Python `line.split('|')` (the only split the driver performs). -/
def pySplit (s : String) : List String :=
  (splitFields s.data).map (fun cs => String.mk cs)

/-- Python `s.upper()`.  The driver only compares the result against the
ASCII keywords `BTN`, `READY`, `DOWN`, for which ASCII-only uppercasing
agrees with Python's Unicode uppercasing. -/
def pyUpper (s : String) : String :=
  String.mk (s.data.map Char.toUpper)

/-- Whitespace characters removed by Python `str.strip()` (the ASCII ones;
the wire protocol is ASCII). -/
def isPyWhitespace (c : Char) : Bool :=
  c = ' ' || c = '\t' || c = '\n' || c = '\r'

/-- Python `s.strip()`: drop leading and trailing whitespace. -/
def pyStrip (s : String) : String :=
  String.mk (((s.data.dropWhile isPyWhitespace).reverse.dropWhile
    isPyWhitespace).reverse)

/-!
## The ButtonDriver protocol handler (driver.py lines 117-177)

`ButtonDriver.handle_line` is pure dispatch whose only outputs are side
effects: spawning a process, sending a line through the transport, and
starting a daemon timer thread that, after a delay, sends one more line.
We embed it as a function returning the ordered list of those effects.
The outcome of `subprocess.Popen` depends on the operating system, so it
is abstracted as an oracle `spawnOk : List String → Bool` (`true` means
the spawn raised no exception; `FileNotFoundError` and any other
exception both take the failure branch in the source).
-/

/-- One observable effect of the protocol handler. -/
inductive Eff where
  /-- A `subprocess.Popen(command)` attempt (driver.py line 149). -/
  | spawn (command : List String)
  /-- One `transport.send_line(line)` call performed immediately. -/
  | send (line : String)
  /-- A daemon timer started by `flash_led`: after `delayMs` milliseconds
  (the source sleeps `delayMs / 1000.0` seconds) it sends `line`. -/
  | schedule (delayMs : Nat) (line : String)
deriving DecidableEq, Repr

/-- The `ButtonDriver` construction state (driver.py lines 118-123): the
program registry (Python dict, embedded as a partial map) and the two
flash durations with their source defaults. -/
structure ButtonDriver where
  programs : String → Option (List String)
  success_flash_ms : Nat := 1200
  error_flash_ms : Nat := 2000

/-- The method `ButtonDriver.send_led` (driver.py lines 158-163): builds
`LED|<id>|<mode>` and appends `|<argument>` exactly when an argument is
supplied.  The source accepts `Union[str, int]` for the id and applies
`str`; all call sites pass the button id string, which we take directly. -/
def send_led (led_id : String) (mode : String) (argument : Option Nat) : String :=
  let command := "LED|" ++ led_id ++ "|" ++ mode
  match argument with
  | some a => command ++ "|" ++ toString a
  | none => command

/-- The blink period chosen by `flash_led` (driver.py line 166:
`period = 180 if success else 80`). -/
def flash_period (success : Bool) : Nat :=
  if success then 180 else 80

/-- The body of the timer thread `ButtonDriver._delayed_led_off`
(driver.py lines 175-177): after the sleep it sends one OFF command. -/
def delayed_led_off (button_id : String) : String :=
  send_led button_id "OFF" none

/-- The method `ButtonDriver.flash_led` (driver.py lines 165-173): send one BLINK
command with the success- or failure-specific period, then start one
timer thread that will send the OFF command after the success- or
failure-specific duration. -/
def flash_led (d : ButtonDriver) (button_id : String) (success : Bool) : List Eff :=
  let period := flash_period success
  let duration := if success then d.success_flash_ms else d.error_flash_ms
  [Eff.send (send_led button_id "BLINK" (some period)),
   Eff.schedule duration (delayed_led_off button_id)]

/-- The method `ButtonDriver.launch_program` (driver.py lines 141-156): unmapped
button → failure flash and return; mapped button → one spawn attempt,
then success flash if the spawn raised nothing, failure flash otherwise. -/
def launch_program (d : ButtonDriver) (spawnOk : List String → Bool)
    (button_id : String) : List Eff :=
  match d.programs button_id with
  | none => flash_led d button_id false
  | some command =>
    Eff.spawn command ::
      (if spawnOk command then flash_led d button_id true
       else flash_led d button_id false)

/-- The method `ButtonDriver.handle_line` (driver.py lines 125-139): empty line is
ignored; otherwise split on `|`; topic `BTN` with at least 3 fields and
action `DOWN` (both case-normalised) launches; `READY` is logged only;
everything else is logged and ignored.  The function is total: no
exception escapes. -/
def handle_line (d : ButtonDriver) (spawnOk : List String → Bool)
    (line : String) : List Eff :=
  if line = "" then []
  else
    let parts := pySplit line
    let topic := pyUpper (parts.getD 0 "")
    if topic = "BTN" ∧ 3 ≤ parts.length then
      let button_id := parts.getD 1 ""
      let event := pyUpper (parts.getD 2 "")
      if event = "DOWN" then launch_program d spawnOk button_id
      else []
    else if topic = "READY" then []
    else []

/-- A concrete registry used by concrete evaluations: button `"1"` is
mapped to `["notepad.exe"]`, everything else is unmapped. -/
def exampleDriver : ButtonDriver where
  programs := fun id => if id = "1" then some ["notepad.exe"] else none

/-!
## normalize_program (driver.py lines 180-196)

The config entry is a dynamically typed Python value: a `str`, a
`Sequence`, or a `dict` with a `command` key and an optional `args`
value.  We embed the relevant fragment of Python's value universe.  The
decisive dynamic facts mirrored here: `str` and `list` satisfy
`isinstance(·, Sequence)` while `dict`, `int` and `None` do not;
iterating over a `str` yields its characters as one-character strings;
`entry.get(key)` returns `None` for a missing key; `if not command`
tests Python falsiness.
-/

/-- A Python value of the shapes `normalize_program` can meet. -/
inductive PyVal where
  | vstr (s : String)
  | vint (n : Int)
  | vlist (xs : List PyVal)
  | vdict (kvs : List (String × PyVal))
  | vnone

/-- Python `str(v)` for the values the claims touch (`str` and `int`;
`None` prints as `None`).  `list`/`dict` reprs are never reached by the
driver's token conversion and get placeholders. -/
def pyStr : PyVal → String
  | .vstr s => s
  | .vint n => toString n
  | .vlist _ => "<list>"
  | .vdict _ => "<dict>"
  | .vnone => "None"

/-- Python `isinstance(v, Sequence)`: true for `str` and `list` only. -/
def isSequence : PyVal → Bool
  | .vstr _ => true
  | .vlist _ => true
  | _ => false

/-- Iterating over a Python sequence: a `str` yields its characters as
one-character strings, a `list` yields its elements. -/
def seqElems : PyVal → List PyVal
  | .vstr s => s.data.map (fun c => PyVal.vstr c.toString)
  | .vlist xs => xs
  | _ => []

/-- Python truthiness of a value (`if not command`). -/
def pyTruthy : PyVal → Bool
  | .vstr s => !(s = "")
  | .vint n => !(n = 0)
  | .vlist [] => false
  | .vlist (_ :: _) => true
  | .vdict [] => false
  | .vdict (_ :: _) => true
  | .vnone => false

/-- Python `dict.get(k)`: the value at the first matching key, if any. -/
def dictGet (kvs : List (String × PyVal)) (k : String) : Option PyVal :=
  (kvs.find? (fun kv => kv.1 == k)).map (fun kv => kv.2)

/-- The function `normalize_program` (driver.py lines 180-196).  A `str` entry is
returned as the one-element list `[entry]`; any other `Sequence` maps
`str` over its elements; a `dict` requires a truthy `command`, then
extends with `args` element-by-element when `args` is a `Sequence`
(which a `str` is) and appends `str(args)` as one token otherwise;
anything else raises `TypeError`.  `raise` is embedded as `Except.error`. -/
def normalize_program : PyVal → Except String (List String)
  | e =>
    match e with
    | .vstr s => .ok [s]
    | _ =>
      if isSequence e then .ok ((seqElems e).map pyStr)
      else
        match e with
        | .vdict kvs =>
          let command := (dictGet kvs "command").getD .vnone
          if !pyTruthy command then
            .error "Missing 'command' key in program entry"
          else
            let args := (dictGet kvs "args").getD (.vlist [])
            let tokens := [pyStr command]
            if isSequence args then .ok (tokens ++ (seqElems args).map pyStr)
            else .ok (tokens ++ [pyStr args])
        | _ => .error "Unsupported program entry"

/-!
## SerialTransport (driver.py lines 43-100)

The transport's state is its optional serial handle (`self.serial`,
with the handle's `is_open` flag) together with the non-reentrant
`threading.Lock` inherited from `TransportBase` (driver.py lines 30-31).
I/O outcomes of the operating system are an oracle `SerialEnv`: the
n-th `serial.Serial(...)` open attempt, the n-th `.write(...)` and the
n-th `.readline()` succeed or raise `SerialException` as the oracle
directs.  Because `_connect_with_retry` loops until an open succeeds and
(mutually) calls `send_line` for the `HELLO|PC` handshake, the embedding
is indexed by fuel; every run of the real code with finitely many steps
is a run of the embedding with enough fuel.

Crucially, `threading.Lock` is not reentrant: a thread that tries to
acquire a lock it already holds blocks forever.  The embedding records
the lock bit of the executing thread and returns `deadlock` on a
re-acquisition, which is exactly what CPython does there.
-/

/-- Mutable state of a `SerialTransport` as seen by one thread: the
optional handle (`some b` with `b` the handle's `is_open`), whether this
thread currently holds the transport lock, cursors into the oracle, and
the lines written to the wire so far. -/
structure TState where
  serial : Option Bool
  lockHeld : Bool
  opens : Nat
  writes : Nat
  reads : Nat
  wire : List String
deriving DecidableEq, Repr

/-- Oracle for operating-system outcomes: whether the n-th open attempt
succeeds, whether the n-th write succeeds, and what the n-th
`readline()` yields (`none` = raises `SerialException`, `some d` = the
bytes read, possibly empty). -/
structure SerialEnv where
  openOk : Nat → Bool
  writeOk : Nat → Bool
  readRes : Nat → Option String

/-- Return value of a transport operation: `unit` for
`send_line`/`_connect_with_retry`/`_require_serial`, `str` for
`read_line` (mirroring Python's `Optional[str]`). -/
inductive RVal where
  | unit
  | str (s : Option String)
deriving DecidableEq, Repr

/-- Result of running a transport operation: normal return, a
propagating `SerialException`, a deadlock on the non-reentrant lock, or
fuel exhaustion (the real code would still be looping). -/
inductive TRes where
  | ok (v : RVal) (s : TState)
  | exn (s : TState)
  | deadlock
  | fuelOut
deriving DecidableEq, Repr

/-- Selector for the four `SerialTransport` operations, so that the
mutually recursive source methods become one structurally recursive
function on fuel. -/
inductive TCall where
  | connect
  | require
  | send (line : String)
  | read

/-- One-step interpreter of the `SerialTransport` methods.

* `.connect` is `_connect_with_retry` (lines 55-66): loop while
  `self.serial is None`; an open failure is caught and retried; a
  successful open sets the handle, then sends `HELLO|PC` through
  `self.send_line`, whose `SerialException` is also caught by the
  `except` before the loop re-checks its guard.
* `.require` is `_require_serial` (lines 68-72): reconnect first when
  the handle is absent or closed.
* `.send line` is `send_line` (lines 74-83): strip, append newline,
  acquire the lock (deadlock if this thread already holds it), write;
  on failure drop the handle, reconnect, and retry the write once,
  letting a second failure propagate.  The `with` block releases the
  lock on normal exit and on exception.
* `.read` is `read_line` (lines 85-96): a read failure drops the handle
  and returns `""`; empty bytes return `""`; otherwise the decoded,
  stripped line. -/
def exec : Nat → SerialEnv → TState → TCall → TRes
  | 0, _, _, _ => .fuelOut
  | n + 1, env, s, .connect =>
    match s.serial with
    | some _ => .ok .unit s
    | none =>
      if env.openOk s.opens then
        let s1 := { s with serial := some true, opens := s.opens + 1 }
        match exec n env s1 (.send "HELLO|PC") with
        | .ok _ s2 => exec n env s2 .connect
        | .exn s2 => exec n env s2 .connect
        | r => r
      else
        exec n env { s with opens := s.opens + 1 } .connect
  | n + 1, env, s, .require =>
    if s.serial = none ∨ s.serial = some false then
      exec n env { s with serial := none } .connect
    else .ok .unit s
  | n + 1, env, s, .send line =>
    let payload := pyStrip line ++ "\n"
    if s.lockHeld then .deadlock
    else
      let s0 := { s with lockHeld := true }
      match exec n env s0 .require with
      | .ok _ s1 =>
        if env.writeOk s1.writes then
          .ok .unit { s1 with writes := s1.writes + 1,
                              wire := s1.wire ++ [payload], lockHeld := false }
        else
          let s2 := { s1 with writes := s1.writes + 1, serial := none }
          match exec n env s2 .connect with
          | .ok _ s3 =>
            match exec n env s3 .require with
            | .ok _ s4 =>
              if env.writeOk s4.writes then
                .ok .unit { s4 with writes := s4.writes + 1,
                                    wire := s4.wire ++ [payload],
                                    lockHeld := false }
              else .exn { s4 with writes := s4.writes + 1, lockHeld := false }
            | .exn s4 => .exn { s4 with lockHeld := false }
            | r => r
          | .exn s3 => .exn { s3 with lockHeld := false }
          | r => r
      | .exn s1 => .exn { s1 with lockHeld := false }
      | r => r
  | n + 1, env, s, .read =>
    match exec n env s .require with
    | .ok _ s1 =>
      match env.readRes s1.reads with
      | none => .ok (.str (some "")) { s1 with reads := s1.reads + 1,
                                               serial := none }
      | some data =>
        if data = "" then .ok (.str (some "")) { s1 with reads := s1.reads + 1 }
        else .ok (.str (some (pyStrip data))) { s1 with reads := s1.reads + 1 }
    | .exn s1 => .exn s1
    | r => r

/-- The method `SerialTransport._connect_with_retry` with the given fuel. -/
def connect_with_retry (fuel : Nat) (env : SerialEnv) (s : TState) : TRes :=
  exec fuel env s .connect

/-- The method `SerialTransport._require_serial` with the given fuel. -/
def require_serial (fuel : Nat) (env : SerialEnv) (s : TState) : TRes :=
  exec fuel env s .require

/-- The method `SerialTransport.send_line` with the given fuel. -/
def send_line (fuel : Nat) (env : SerialEnv) (s : TState) (line : String) : TRes :=
  exec fuel env s (.send line)

/-- The method `SerialTransport.read_line` with the given fuel. -/
def read_line (fuel : Nat) (env : SerialEnv) (s : TState) : TRes :=
  exec fuel env s .read

/-- A connected, idle transport state: handle open, lock free, oracle
cursors at the origin, nothing written yet. -/
def connectedState : TState :=
  { serial := some true, lockHeld := false, opens := 0, writes := 0,
    reads := 0, wire := [] }

/-- An oracle whose opens and writes all succeed and whose reads all
raise. -/
def envWriteOkReadFail : SerialEnv :=
  { openOk := fun _ => true, writeOk := fun _ => true,
    readRes := fun _ => none }

/-- An oracle whose opens all succeed and whose writes all fail. -/
def envWriteFail : SerialEnv :=
  { openOk := fun _ => true, writeOk := fun _ => false,
    readRes := fun _ => some "BTN|1|DOWN" }

/-!
## The write-lock interleaving model (driver.py lines 30-31, 74-83)

`TransportBase.__init__` creates one `threading.Lock`; every write to
the underlying channel happens inside `with self._lock:` in
`SerialTransport.send_line` (and `SimulationTransport.send_line`), so at
most one thread at a time is emitting bytes.  The foreground loop and
each fire-and-forget LED-off timer thread is a writer wanting to emit
one frame.  We model the emission at byte granularity under an arbitrary
scheduler: a thread first acquires the lock (blocking while another
thread holds it), then emits its payload byte by byte, then releases.
Each emitted byte is tagged with the emitting thread so that
interleaving would be visible in the wire trace.
-/

namespace LockModel

/-- A writer thread: waiting to acquire the lock with its whole frame
still to send, holding the lock mid-frame, or finished. -/
inductive Th where
  | pending (payload : List Char)
  | writing (written : List Char) (rest : List Char)
  | done (payload : List Char)
deriving DecidableEq, Repr

/-- Whether a thread has finished its send. -/
def Th.isDone : Th → Bool
  | .done _ => true
  | _ => false

/-- The frame a thread is responsible for, in every phase. -/
def thPayload : Th → List Char
  | .pending p => p
  | .writing w r => w ++ r
  | .done p => p

/-- Global state: the writer threads, the lock owner, the (ghost)
completion order, and the tagged byte stream on the wire. -/
structure MState where
  threads : List Th
  holder : Option Nat
  order : List Nat
  wire : List (Nat × Char)
deriving DecidableEq, Repr

/-- One scheduler step giving thread `t` a turn.  A pending thread
acquires the free lock (or stays blocked); the lock holder emits its
next byte, or releases the lock when its frame is finished. -/
def step (s : MState) (t : Nat) : MState :=
  match s.threads[t]? with
  | none => s
  | some th =>
    match th with
    | .pending p =>
      match s.holder with
      | none => { s with threads := s.threads.set t (.writing [] p),
                         holder := some t }
      | some _ => s
    | .writing w [] =>
      { s with threads := s.threads.set t (.done w), holder := none,
               order := s.order ++ [t] }
    | .writing w (c :: r) =>
      { s with threads := s.threads.set t (.writing (w ++ [c]) r),
               wire := s.wire ++ [(t, c)] }
    | .done _ => s

/-- Run a whole schedule. -/
def run (s : MState) : List Nat → MState
  | [] => s
  | t :: ts => run (step s t) ts

/-- Initial state for `N` concurrent sends of the given frames. -/
def init (ps : List (List Char)) : MState :=
  { threads := ps.map Th.pending, holder := none, order := [], wire := [] }

/-- The tagged byte sequence of one whole frame from thread `t`. -/
def frameOf (t : Nat) (p : List Char) : List (Nat × Char) :=
  p.map (fun c => (t, c))

/-- The frame thread `t` was given initially. -/
def payloadAt (ps : List (List Char)) (t : Nat) : List Char :=
  (ps[t]?).getD []

/-- The wire contents after the threads listed in `order` have emitted
their whole frames back to back: no byte of one frame inside another. -/
def doneFrames (ps : List (List Char)) (order : List Nat) : List (Nat × Char) :=
  (order.map (fun t => frameOf t (payloadAt ps t))).flatten

/-- The inductive invariant: payloads are preserved, the completion
order lists exactly the finished threads without repetition, at most
the lock holder is mid-frame, and the wire is always a back-to-back
concatenation of finished whole frames followed by the holder's
written portion. -/
structure Inv (ps : List (List Char)) (s : MState) : Prop where
  payloads : s.threads.map thPayload = ps
  order_done : ∀ t ∈ s.order, ∃ p, s.threads[t]? = some (Th.done p)
  done_order : ∀ (t : Nat) (p : List Char),
    s.threads[t]? = some (Th.done p) → t ∈ s.order
  order_nodup : s.order.Nodup
  holder_free : s.holder = none →
    (∀ (t : Nat) (w r : List Char), s.threads[t]? ≠ some (Th.writing w r)) ∧
      s.wire = doneFrames ps s.order
  holder_some : ∀ h, s.holder = some h →
    ∃ w r, s.threads[h]? = some (Th.writing w r) ∧
      (∀ (t : Nat) (w' r' : List Char),
        s.threads[t]? = some (Th.writing w' r') → t = h) ∧
      s.wire = doneFrames ps s.order ++ frameOf h w

end LockModel

namespace LockModel

theorem set_getElem?_self {α : Type} :
    ∀ (l : List α) (i : Nat) (a : α), l[i]? = some a → l.set i a = l
  | [], _, _, h => by simp at h
  | x :: xs, 0, a, h => by
    simp at h
    simp [h]
  | x :: xs, i + 1, a, h => by
    simp at h
    simp [List.set, set_getElem?_self xs i a h]

theorem payloadAt_eq {ps : List (List Char)} {l : List Th}
    (hmap : l.map thPayload = ps) {t : Nat} {th : Th} (h : l[t]? = some th) :
    payloadAt ps t = thPayload th := by
  unfold payloadAt
  rw [← hmap, List.getElem?_map, h]
  rfl

theorem map_thPayload_set {l : List Th} {t : Nat} {th th' : Th}
    (h : l[t]? = some th) (heq : thPayload th' = thPayload th) :
    (l.set t th').map thPayload = l.map thPayload := by
  rw [List.map_set]
  apply set_getElem?_self
  rw [List.getElem?_map, h, heq]
  rfl

theorem doneFrames_append (ps : List (List Char)) (order : List Nat) (t : Nat) :
    doneFrames ps (order ++ [t]) =
      doneFrames ps order ++ frameOf t (payloadAt ps t) := by
  unfold doneFrames
  rw [List.map_append, List.flatten_append]
  simp

theorem frameOf_nil (t : Nat) : frameOf t [] = [] := rfl

theorem frameOf_concat (t : Nat) (w : List Char) (c : Char) :
    frameOf t (w ++ [c]) = frameOf t w ++ [(t, c)] := by
  unfold frameOf
  rw [List.map_append]
  rfl

theorem inv_init (ps : List (List Char)) : Inv ps (init ps) := by
  refine ⟨?_, ?_, ?_, ?_, ?_, ?_⟩
  · show (ps.map Th.pending).map thPayload = ps
    rw [List.map_map]
    have hid : thPayload ∘ Th.pending = id := funext (fun _ => rfl)
    rw [hid, List.map_id]
  · intro t ht
    simp [init] at ht
  · intro t p h
    rw [init] at h
    simp only at h
    rw [List.getElem?_map] at h
    cases hx : ps[t]? <;> simp [hx] at h
  · simp [init]
  · intro _
    constructor
    · intro t w r h
      rw [init] at h
      simp only at h
      rw [List.getElem?_map] at h
      cases hx : ps[t]? <;> simp [hx] at h
    · simp [init, doneFrames]
  · intro h hh
    simp [init] at hh

end LockModel

namespace LockModel

theorem inv_step {ps : List (List Char)} {s : MState} (t : Nat) (hI : Inv ps s) :
    Inv ps (step s t) := by
  cases hth : s.threads[t]? with
  | none =>
    simpa [step, hth] using hI
  | some th =>
    have hlt : t < s.threads.length := (List.getElem?_eq_some.1 hth).1
    cases th with
    | pending p =>
      cases hh : s.holder with
      | some x => simpa [step, hth, hh] using hI
      | none =>
        have hfree := hI.holder_free hh
        simp only [step, hth, hh]
        refine ⟨?_, ?_, ?_, ?_, ?_, ?_⟩
        · show (s.threads.set t (Th.writing [] p)).map thPayload = ps
          rw [map_thPayload_set hth (by simp [thPayload])]
          exact hI.payloads
        · intro u hu
          obtain ⟨q, hq⟩ := hI.order_done u hu
          have hne : t ≠ u := by
            intro he
            subst he
            rw [hth] at hq
            simp at hq
          exact ⟨q, by rw [List.getElem?_set_ne hne]; exact hq⟩
        · intro u q hq
          by_cases he : t = u
          · subst he
            rw [List.getElem?_set_self hlt] at hq
            simp at hq
          · rw [List.getElem?_set_ne he] at hq
            exact hI.done_order u q hq
        · exact hI.order_nodup
        · intro hnone
          exact Option.noConfusion hnone
        · intro h hsome
          injection hsome with he
          subst he
          refine ⟨[], p, ?_, ?_, ?_⟩
          · rw [List.getElem?_set_self hlt]
          · intro u w' r' hu
            by_cases he : t = u
            · exact he.symm
            · rw [List.getElem?_set_ne he] at hu
              exact absurd hu (hfree.1 u w' r')
          · rw [hfree.2, frameOf_nil, List.append_nil]
    | writing w rest =>
      have hhold : s.holder = some t := by
        cases hh : s.holder with
        | none => exact absurd hth ((hI.holder_free hh).1 t w rest)
        | some x =>
          obtain ⟨w', r', hx, huniq, hwire⟩ := hI.holder_some x hh
          rw [huniq t w rest hth]
      obtain ⟨w', r', hx, huniq, hwire⟩ := hI.holder_some t hhold
      rw [hth] at hx
      simp only [Option.some.injEq, Th.writing.injEq] at hx
      obtain ⟨hw1, hw2⟩ := hx
      subst hw1
      subst hw2
      cases rest with
      | nil =>
        simp only [step, hth]
        refine ⟨?_, ?_, ?_, ?_, ?_, ?_⟩
        · show (s.threads.set t (Th.done w)).map thPayload = ps
          rw [map_thPayload_set hth (by simp [thPayload])]
          exact hI.payloads
        · intro u hu
          rcases List.mem_append.1 hu with hu | hu
          · obtain ⟨q, hq⟩ := hI.order_done u hu
            have hne : t ≠ u := by
              intro he
              subst he
              rw [hth] at hq
              simp at hq
            exact ⟨q, by rw [List.getElem?_set_ne hne]; exact hq⟩
          · have he : u = t := by simpa using hu
            subst he
            exact ⟨w, by rw [List.getElem?_set_self hlt]⟩
        · intro u q hq
          by_cases he : t = u
          · subst he
            exact List.mem_append.2 (Or.inr (by simp))
          · rw [List.getElem?_set_ne he] at hq
            exact List.mem_append.2 (Or.inl (hI.done_order u q hq))
        · have hnm : t ∉ s.order := by
            intro ht
            obtain ⟨q, hq⟩ := hI.order_done t ht
            rw [hth] at hq
            simp at hq
          rw [List.nodup_append]
          refine ⟨hI.order_nodup, List.nodup_singleton t, ?_⟩
          intro a ha hb
          simp at hb
          subst hb
          exact hnm ha
        · intro _
          constructor
          · intro u w2 r2 hu
            by_cases he : t = u
            · subst he
              rw [List.getElem?_set_self hlt] at hu
              simp at hu
            · rw [List.getElem?_set_ne he] at hu
              exact he (huniq u w2 r2 hu).symm
          · rw [doneFrames_append, payloadAt_eq hI.payloads hth]
            simpa [thPayload] using hwire
        · intro h hsome
          exact Option.noConfusion hsome
      | cons c r =>
        simp only [step, hth]
        refine ⟨?_, ?_, ?_, ?_, ?_, ?_⟩
        · show (s.threads.set t (Th.writing (w ++ [c]) r)).map thPayload = ps
          rw [map_thPayload_set hth (by simp [thPayload])]
          exact hI.payloads
        · intro u hu
          obtain ⟨q, hq⟩ := hI.order_done u hu
          have hne : t ≠ u := by
            intro he
            subst he
            rw [hth] at hq
            simp at hq
          exact ⟨q, by rw [List.getElem?_set_ne hne]; exact hq⟩
        · intro u q hq
          by_cases he : t = u
          · subst he
            rw [List.getElem?_set_self hlt] at hq
            simp at hq
          · rw [List.getElem?_set_ne he] at hq
            exact hI.done_order u q hq
        · exact hI.order_nodup
        · intro hnone
          rw [hhold] at hnone
          exact Option.noConfusion hnone
        · intro h hsome
          rw [hhold] at hsome
          injection hsome with he
          subst he
          refine ⟨w ++ [c], r, ?_, ?_, ?_⟩
          · rw [List.getElem?_set_self hlt]
          · intro u w2 r2 hu
            by_cases he : t = u
            · exact he.symm
            · rw [List.getElem?_set_ne he] at hu
              exact huniq u w2 r2 hu
          · rw [hwire, frameOf_concat, List.append_assoc]
    | done p =>
      simpa [step, hth] using hI

theorem inv_run {ps : List (List Char)} :
    ∀ (sch : List Nat) (s : MState), Inv ps s → Inv ps (run s sch)
  | [], _, hI => hI
  | t :: ts, s, hI => inv_run ts (step s t) (inv_step t hI)

end LockModel

namespace LockModel

theorem no_interleaving (ps : List (List Char)) (sch : List Nat)
    (hdone : ∀ th ∈ (run (init ps) sch).threads, th.isDone = true) :
    ∃ order : List Nat, order.Perm (List.range ps.length) ∧
      (run (init ps) sch).wire = doneFrames ps order := by
  have hI := inv_run sch (init ps) (inv_init ps)
  set s := run (init ps) sch with hs
  have hlen : s.threads.length = ps.length := by
    have hp := hI.payloads
    calc s.threads.length = (s.threads.map thPayload).length :=
          (List.length_map _ _).symm
    _ = ps.length := by rw [hp]
  have hnone : s.holder = none := by
    cases hh : s.holder with
    | none => rfl
    | some x =>
      obtain ⟨w, r, hx, _, _⟩ := hI.holder_some x hh
      have hmem : Th.writing w r ∈ s.threads := List.getElem?_mem hx
      have hd := hdone _ hmem
      simp [Th.isDone] at hd
  refine ⟨s.order, ?_, (hI.holder_free hnone).2⟩
  rw [List.perm_ext_iff_of_nodup hI.order_nodup (List.nodup_range _)]
  intro a
  rw [List.mem_range]
  constructor
  · intro ha
    obtain ⟨q, hq⟩ := hI.order_done a ha
    have hlt := (List.getElem?_eq_some.1 hq).1
    rwa [hlen] at hlt
  · intro ha
    have ha' : a < s.threads.length := by rwa [hlen]
    have hq : s.threads[a]? = some s.threads[a] := List.getElem?_eq_getElem ha'
    have hmem : s.threads[a] ∈ s.threads := List.getElem?_mem hq
    have hd := hdone _ hmem
    cases hth : s.threads[a] with
    | done p => exact hI.done_order a p (by rw [hq, hth])
    | pending p =>
      rw [hth] at hd
      simp [Th.isDone] at hd
    | writing w r =>
      rw [hth] at hd
      simp [Th.isDone] at hd

end LockModel

/-!
## Claim theorems
-/

/-- Claim C1, counterexample.  The claim states that for every button id
the BLINK period sent by `flash_led(button_id, success=True)` is strictly
smaller than the one sent by `flash_led(button_id, success=False)`.  At
button id `"1"` the success call sends the BLINK with period
`flash_period true = 180` and the failure call sends period
`flash_period false = 80`, and `180 < 80` is false, refuting the claim. -/
theorem C1_period_counterexample :
    (flash_led exampleDriver "1" true).getD 0 (Eff.send "") =
        Eff.send (send_led "1" "BLINK" (some (flash_period true))) ∧
    (flash_led exampleDriver "1" false).getD 0 (Eff.send "") =
        Eff.send (send_led "1" "BLINK" (some (flash_period false))) ∧
    ¬ flash_period true < flash_period false := by
  refine ⟨by decide, by decide, by decide⟩

/-- Claim C1, amended.  For every button id, `flash_led` with
`success=True` sends a BLINK command with period 180 and `success=False`
sends period 80: the failure period is strictly smaller (failure is the
faster blink, success the slower one), the opposite of the claimed
direction. -/
theorem C1_amended_success_period_greater (d : ButtonDriver) (button_id : String) :
    flash_led d button_id true =
      [Eff.send (send_led button_id "BLINK" (some 180)),
       Eff.schedule d.success_flash_ms (delayed_led_off button_id)] ∧
    flash_led d button_id false =
      [Eff.send (send_led button_id "BLINK" (some 80)),
       Eff.schedule d.error_flash_ms (delayed_led_off button_id)] ∧
    flash_period false < flash_period true := by
  refine ⟨?_, ?_, by decide⟩ <;> simp [flash_led, flash_period]

/-- Claim C7.  `send_led("3", BLINK, 180)` produces exactly
`LED|3|BLINK|180` and `send_led("3", OFF)` produces exactly `LED|3|OFF`;
in general the argument field is appended if and only if an argument is
supplied. -/
theorem C7_send_led_round_trip :
    send_led "3" "BLINK" (some 180) = "LED|3|BLINK|180" ∧
    send_led "3" "OFF" none = "LED|3|OFF" ∧
    (∀ (led_id mode : String) (a : Nat),
      send_led led_id mode (some a) =
        "LED|" ++ led_id ++ "|" ++ mode ++ "|" ++ toString a) ∧
    ∀ (led_id mode : String),
      send_led led_id mode none = "LED|" ++ led_id ++ "|" ++ mode := by
  refine ⟨by decide, by decide, ?_, ?_⟩ <;> intros <;> rfl

/-- Claim C9.  A string program entry is returned by `normalize_program`
as the one-element token list containing the entry itself: the string is
never split on whitespace, so `"notepad.exe -x"` stays a single token. -/
theorem C9_str_entry_single_token (s : String) :
    normalize_program (PyVal.vstr s) = Except.ok [s] := rfl

/-- Claim C10.  A dict program entry whose `args` value is a string `s`
(rather than a list) gets each character of `s` appended as a separate
token, because Python strings satisfy the `isinstance(args, Sequence)`
check that selects element-wise extension. -/
theorem C10_str_args_char_tokens (c s : String) (hc : c ≠ "") :
    normalize_program
        (PyVal.vdict [("command", PyVal.vstr c), ("args", PyVal.vstr s)]) =
      Except.ok (c :: s.data.map (fun ch => ch.toString)) := by
  simp [normalize_program, isSequence, dictGet, List.find?, pyTruthy, hc,
    seqElems, pyStr, List.map_map]

/-- Claim C10, witness: `{"command": "bash", "args": "-c"}` normalizes to
`["bash", "-", "c"]`. -/
theorem C10_witness :
    ("bash" : String) ≠ "" ∧
    normalize_program
        (PyVal.vdict [("command", PyVal.vstr "bash"), ("args", PyVal.vstr "-c")]) =
      Except.ok ["bash", "-", "c"] :=
  ⟨by decide, (C10_str_args_char_tokens "bash" "-c" (by decide)).trans rfl⟩

/-- Claim C3, counterexample.  The claim asserts unconditionally that a
mapped `BTN|<id>|DOWN` line yields one spawn attempt AND one
success-pattern BLINK and one OFF deferred by the success duration; but
when the spawn attempt raises (here: the oracle reports failure for
every command), the code sends the failure pattern instead: at line
`BTN|1|DOWN` with `"1"` mapped to `["notepad.exe"]`, the spawn attempt
happens, yet the BLINK sent has the failure period 80 and the OFF is
deferred by the error duration 2000, and no success-pattern BLINK
(period 180) is sent at all. -/
theorem C3_spawn_failure_counterexample :
    handle_line exampleDriver (fun _ => false) "BTN|1|DOWN" =
      [Eff.spawn ["notepad.exe"], Eff.send "LED|1|BLINK|80",
       Eff.schedule 2000 "LED|1|OFF"] ∧
    Eff.send (send_led "1" "BLINK" (some (flash_period true))) ∉
      handle_line exampleDriver (fun _ => false) "BTN|1|DOWN" := by
  refine ⟨by decide, by decide⟩

/-- Claim C3, amended.  For every line whose `|`-split fields give
(case-insensitively) topic `BTN`, at least 3 fields, action `DOWN`, and
a button id mapped to `cmd`, `handle_line` performs exactly one spawn
attempt with `cmd` in every run — whatever the spawn outcome, with no
retry of the launch; when the spawn raises no exception it additionally
sends exactly one success-pattern BLINK (period 180) for the id and
schedules exactly one deferred OFF for the id after the success
duration, and when the spawn raises it instead sends exactly one
failure-pattern BLINK (period 80) and schedules the OFF after the
failure duration. -/
theorem C3_mapped_down_effects (d : ButtonDriver)
    (spawnOk : List String → Bool) (line : String) (cmd : List String)
    (hne : line ≠ "")
    (htopic : pyUpper ((pySplit line).getD 0 "") = "BTN")
    (hlen : 3 ≤ (pySplit line).length)
    (hact : pyUpper ((pySplit line).getD 2 "") = "DOWN")
    (hmap : d.programs ((pySplit line).getD 1 "") = some cmd) :
    handle_line d spawnOk line =
      Eff.spawn cmd ::
        (if spawnOk cmd then
          [Eff.send (send_led ((pySplit line).getD 1 "") "BLINK" (some 180)),
           Eff.schedule d.success_flash_ms
             (delayed_led_off ((pySplit line).getD 1 ""))]
         else
          [Eff.send (send_led ((pySplit line).getD 1 "") "BLINK" (some 80)),
           Eff.schedule d.error_flash_ms
             (delayed_led_off ((pySplit line).getD 1 ""))]) := by
  simp only [handle_line]
  rw [if_neg hne, if_pos ⟨htopic, hlen⟩, if_pos hact]
  simp only [launch_program, hmap]
  cases hs : spawnOk cmd <;> simp [hs, flash_led, flash_period]

/-- Claim C3, witness: concrete registry mapping `"1"` to
`["notepad.exe"]` and the line `BTN|1|DOWN`, once with a spawn oracle
that succeeds (success BLINK, OFF after 1200 ms) and once with one that
raises (exactly one spawn attempt still, failure BLINK, OFF after
2000 ms). -/
theorem C3_witness :
    ("BTN|1|DOWN" : String) ≠ "" ∧
    pyUpper ((pySplit "BTN|1|DOWN").getD 0 "") = "BTN" ∧
    3 ≤ (pySplit "BTN|1|DOWN").length ∧
    pyUpper ((pySplit "BTN|1|DOWN").getD 2 "") = "DOWN" ∧
    exampleDriver.programs ((pySplit "BTN|1|DOWN").getD 1 "") =
      some ["notepad.exe"] ∧
    handle_line exampleDriver (fun _ => true) "BTN|1|DOWN" =
      [Eff.spawn ["notepad.exe"], Eff.send "LED|1|BLINK|180",
       Eff.schedule 1200 "LED|1|OFF"] ∧
    handle_line exampleDriver (fun _ => false) "BTN|1|DOWN" =
      [Eff.spawn ["notepad.exe"], Eff.send "LED|1|BLINK|80",
       Eff.schedule 2000 "LED|1|OFF"] :=
  ⟨by decide, by decide, by decide, by decide, by decide,
   (C3_mapped_down_effects exampleDriver (fun _ => true) "BTN|1|DOWN"
     ["notepad.exe"] (by decide) (by decide) (by decide) (by decide)
     (by decide)).trans rfl,
   (C3_mapped_down_effects exampleDriver (fun _ => false) "BTN|1|DOWN"
     ["notepad.exe"] (by decide) (by decide) (by decide) (by decide)
     (by decide)).trans rfl⟩

/-- Claim C4.  For every line whose `|`-split fields give
(case-insensitively) topic `BTN`, at least 3 fields and action `DOWN`,
with a button id that is not a key of the registry, `handle_line`
performs zero spawn attempts and sends exactly one failure-pattern BLINK
(period 80) and schedules exactly one deferred OFF for that id after the
error duration.  The embedding is a total function, so no exception
escapes the call. -/
theorem C4_unmapped_down_failure_effects (d : ButtonDriver)
    (spawnOk : List String → Bool) (line : String)
    (hne : line ≠ "")
    (htopic : pyUpper ((pySplit line).getD 0 "") = "BTN")
    (hlen : 3 ≤ (pySplit line).length)
    (hact : pyUpper ((pySplit line).getD 2 "") = "DOWN")
    (hmap : d.programs ((pySplit line).getD 1 "") = none) :
    handle_line d spawnOk line =
      [Eff.send (send_led ((pySplit line).getD 1 "") "BLINK" (some 80)),
       Eff.schedule d.error_flash_ms
         (delayed_led_off ((pySplit line).getD 1 ""))] := by
  simp only [handle_line]
  rw [if_neg hne, if_pos ⟨htopic, hlen⟩, if_pos hact]
  simp only [launch_program, hmap]
  simp [flash_led, flash_period]

/-- Claim C4, witness: button `"9"` is unmapped in the concrete registry
and `BTN|9|DOWN` yields exactly the failure blink/OFF pair. -/
theorem C4_witness :
    ("BTN|9|DOWN" : String) ≠ "" ∧
    pyUpper ((pySplit "BTN|9|DOWN").getD 0 "") = "BTN" ∧
    3 ≤ (pySplit "BTN|9|DOWN").length ∧
    pyUpper ((pySplit "BTN|9|DOWN").getD 2 "") = "DOWN" ∧
    exampleDriver.programs ((pySplit "BTN|9|DOWN").getD 1 "") = none ∧
    handle_line exampleDriver (fun _ => true) "BTN|9|DOWN" =
      [Eff.send (send_led ((pySplit "BTN|9|DOWN").getD 1 "") "BLINK" (some 80)),
       Eff.schedule exampleDriver.error_flash_ms
         (delayed_led_off ((pySplit "BTN|9|DOWN").getD 1 ""))] :=
  ⟨by decide, by decide, by decide, by decide, by decide,
   C4_unmapped_down_failure_effects exampleDriver (fun _ => true) "BTN|9|DOWN"
     (by decide) (by decide) (by decide) (by decide) (by decide)⟩

/-- Claim C5.  For every non-empty line whose first `|`-separated field
uppercases to neither `BTN` nor `READY`, or uppercases to `BTN` but with
fewer than 3 fields, `handle_line` produces no effect at all: no spawn,
no line through the transport, no timer; and the embedding is a total
function, so the call does not raise. -/
theorem C5_malformed_line_no_effects (d : ButtonDriver)
    (spawnOk : List String → Bool) (line : String)
    (hne : line ≠ "")
    (h : (pyUpper ((pySplit line).getD 0 "") ≠ "BTN" ∧
          pyUpper ((pySplit line).getD 0 "") ≠ "READY") ∨
         (pyUpper ((pySplit line).getD 0 "") = "BTN" ∧
          (pySplit line).length < 3)) :
    handle_line d spawnOk line = [] := by
  simp only [handle_line]
  rw [if_neg hne]
  rcases h with ⟨hb, hr⟩ | ⟨hb, hl⟩
  · rw [if_neg, if_neg hr]
    intro hc
    exact hb hc.1
  · rw [if_neg, if_neg]
    · rw [hb]
      decide
    · intro hc
      omega

/-- Claim C5, witness: the lines `GARBAGE` (unknown topic) and `BTN|1`
(too few fields) each produce no effects. -/
theorem C5_witness :
    (("GARBAGE" : String) ≠ "" ∧
      (pyUpper ((pySplit "GARBAGE").getD 0 "") ≠ "BTN" ∧
       pyUpper ((pySplit "GARBAGE").getD 0 "") ≠ "READY")) ∧
    handle_line exampleDriver (fun _ => true) "GARBAGE" = [] ∧
    handle_line exampleDriver (fun _ => true) "BTN|1" = [] :=
  ⟨⟨by decide, by decide, by decide⟩,
   C5_malformed_line_no_effects exampleDriver (fun _ => true) "GARBAGE"
     (by decide) (Or.inl ⟨by decide, by decide⟩),
   C5_malformed_line_no_effects exampleDriver (fun _ => true) "BTN|1"
     (by decide) (Or.inr ⟨by decide, by decide⟩)⟩

/-- Claim C2 evaluated at its failing input (code_bug).  The claim (and
the source's own log message `Serial write failed; reconnecting...`)
says a failed first write is recovered by a synchronous reconnect and a
single retry.  In the code, however, the reconnect procedure sends the
`HELLO|PC` handshake through `send_line`, which re-acquires the
transport's non-reentrant `threading.Lock` that the failing `send_line`
call still holds: the call deadlocks instead of retrying.  For every
connected, lock-free state whose next write fails while opens succeed,
`send_line` deadlocks. -/
theorem C2_write_retry_deadlocks (n : Nat) (env : SerialEnv) (s : TState)
    (line : String)
    (hlock : s.lockHeld = false)
    (hser : s.serial = some true)
    (hw : env.writeOk s.writes = false)
    (ho : env.openOk s.opens = true) :
    send_line (n + 3) env s line = TRes.deadlock := by
  obtain ⟨ser, lh, op, wr, rd, wi⟩ := s
  simp only at hlock hser hw ho
  subst hlock
  subst hser
  simp [send_line, exec, hw, ho]

/-- Claim C2, witness: concrete oracle with all opens succeeding and all
writes failing, starting from the connected idle state with fuel 3. -/
theorem C2_witness :
    connectedState.lockHeld = false ∧
    connectedState.serial = some true ∧
    envWriteFail.writeOk connectedState.writes = false ∧
    envWriteFail.openOk connectedState.opens = true ∧
    send_line 3 envWriteFail connectedState "LED|1|OFF" = TRes.deadlock :=
  ⟨rfl, rfl, rfl, rfl,
   C2_write_retry_deadlocks 0 envWriteFail connectedState "LED|1|OFF"
     rfl rfl rfl rfl⟩

/-- Claim C6.  When the underlying `readline()` raises a channel-level
failure inside `read_line` on a connected transport, the call returns
the empty string (`some ""`, not Python `None`) instead of propagating
the exception, and only marks the transport disconnected
(`serial := none`): the resulting state shows the open-attempt counter
unchanged, so no reconnect happens inline — it is deferred to the next
send or read, whose `_require_serial` sees the cleared handle. -/
theorem C6_read_failure_empty (n : Nat) (env : SerialEnv) (s : TState)
    (hser : s.serial = some true)
    (hread : env.readRes s.reads = none) :
    read_line (n + 2) env s =
      TRes.ok (RVal.str (some ""))
        { s with reads := s.reads + 1, serial := none } := by
  obtain ⟨ser, lh, op, wr, rd, wi⟩ := s
  simp only at hser hread
  subst hser
  simp [read_line, exec, hread]

/-- Claim C6, witness: concrete oracle whose reads all raise, connected
idle start state, fuel 2. -/
theorem C6_witness :
    connectedState.serial = some true ∧
    envWriteOkReadFail.readRes connectedState.reads = none ∧
    read_line 2 envWriteOkReadFail connectedState =
      TRes.ok (RVal.str (some ""))
        { connectedState with reads := connectedState.reads + 1,
                              serial := none } :=
  ⟨rfl, rfl, C6_read_failure_empty 0 envWriteOkReadFail connectedState rfl rfl⟩

/-- Claim C8.  For every number of concurrent flash triggers sharing one
transport — modelled as any list of frames, one writer thread per frame,
emitting byte by byte under the transport's exclusive lock exactly as
`send_line` does — and every scheduler interleaving, once all writers
have finished, the byte stream on the wire is a back-to-back
concatenation of the whole frames in some completion order: no frame is
interleaved with bytes of another. -/
theorem C8_lock_serializes_frames (ps : List (List Char)) (sch : List Nat)
    (hdone : ∀ th ∈ (LockModel.run (LockModel.init ps) sch).threads,
      th.isDone = true) :
    ∃ order : List Nat, order.Perm (List.range ps.length) ∧
      (LockModel.run (LockModel.init ps) sch).wire =
        LockModel.doneFrames ps order :=
  LockModel.no_interleaving ps sch hdone

/-- Claim C8, witness: two concurrent writers with frames `AB` and `C`
under a schedule in which the second writer contends for the lock while
the first is mid-frame. -/
theorem C8_witness :
    (∀ th ∈ (LockModel.run
        (LockModel.init [['A', 'B'], ['C']]) [0, 1, 0, 1, 0, 0, 1, 1, 1]).threads,
      th.isDone = true) ∧
    ∃ order : List Nat,
      order.Perm (List.range ([['A', 'B'], ['C']] : List (List Char)).length) ∧
        (LockModel.run
            (LockModel.init [['A', 'B'], ['C']]) [0, 1, 0, 1, 0, 0, 1, 1, 1]).wire =
          LockModel.doneFrames [['A', 'B'], ['C']] order :=
  ⟨by decide, C8_lock_serializes_frames [['A', 'B'], ['C']]
    [0, 1, 0, 1, 0, 0, 1, 1, 1] (by decide)⟩
